import Mathlib

/-!
Verification of the EPiC infrastructure automation handlers.

The repository consists of four scheduled cloud-automation handlers:
a compliance scorer (`compliance_checker.py`), a cost optimizer
(`cost_optimizer.py`), a database backup rotator (`db_backup.py`) and a
Slack notification relay (`slack_notifier.py`).  This file gives a shallow
embedding of their pure decision logic.  Cloud API calls are modelled by
passing each call's outcome in as data (an `Except` value when the source
wraps the call in `try/except`); Python floats are modelled exactly over `ℚ`.
-/

namespace EPiC

/-! ## Compliance scorer: data model (compliance_checker.py) -/

/-- Result structure built by `get_config_rules_compliance` (lines 96-130):
counts of total / compliant / non-compliant AWS Config rules. -/
structure ConfigStatus where
  total_rules : ℕ
  compliant_rules : ℕ
  non_compliant_rules : ℕ
  deriving DecidableEq, Repr

/-- A custom-check result dictionary.  Each of the five check functions
populates a subset of these count keys (`check_resource_tagging` uses
`total_resources`/`compliant_resources`, `check_security_groups` uses
`total_security_groups`/`compliant_security_groups`, and so on); a key that
a given check does not emit reads as `0`, exactly like Python's
`dict.get(key, 0)`. -/
structure CheckData where
  total_resources : ℕ
  compliant_resources : ℕ
  total_buckets : ℕ
  compliant_buckets : ℕ
  total_security_groups : ℕ
  compliant_security_groups : ℕ
  encrypted_resources : ℕ
  private_resources : ℕ
  deriving DecidableEq, Repr

/-- The all-zero check result, returned by every check's `except` branch. -/
def zeroCheck : CheckData := ⟨0, 0, 0, 0, 0, 0, 0, 0⟩

/-- The dictionary assembled by `perform_custom_checks` (lines 133-145):
one result per custom check, keyed by check name. -/
structure CustomChecks where
  tagging_compliance : CheckData
  security_groups : CheckData
  s3_bucket_policies : CheckData
  encryption_status : CheckData
  public_access : CheckData
  deriving DecidableEq, Repr

/-- Python's `a or b` on integers: `b` if `a` is `0` (falsy), else `a`. -/
def pyOrNat (a b : ℕ) : ℕ := if a = 0 then b else a

/-- The `total_resources or total_buckets or total_security_groups`
extraction in `calculate_compliance_score` (line 464). -/
def checkTotal (cd : CheckData) : ℕ :=
  pyOrNat cd.total_resources (pyOrNat cd.total_buckets cd.total_security_groups)

/-- The `compliant_resources or compliant_buckets or
compliant_security_groups or encrypted_resources or private_resources`
extraction in `calculate_compliance_score` (line 465). -/
def checkCompliant (cd : CheckData) : ℕ :=
  pyOrNat cd.compliant_resources
    (pyOrNat cd.compliant_buckets
      (pyOrNat cd.compliant_security_groups
        (pyOrNat cd.encrypted_resources cd.private_resources)))

/-- One category's contribution to `(total_score, total_weight)`: if the
category evaluated at least one resource, it adds
`(compliant / total) * 100 * weight` to the score and `weight` to the
applied weight; otherwise it adds nothing (lines 448-451 and 467-470). -/
def scoreContrib (total compliant : ℕ) (weight : ℚ) : ℚ × ℚ :=
  if 0 < total then (((compliant : ℚ) / (total : ℚ)) * 100 * weight, weight)
  else (0, 0)

/-- `calculate_compliance_score` (lines 439-479): weighted average of the
six category scores, where a category with zero evaluated resources is
skipped entirely, and `0.0` is returned if no weight was applied. -/
def calculate_compliance_score (cfg : ConfigStatus) (checks : CustomChecks) : ℚ :=
  let c0 := scoreContrib cfg.total_rules cfg.compliant_rules 0.4
  let c1 := scoreContrib (checkTotal checks.tagging_compliance)
    (checkCompliant checks.tagging_compliance) 0.15
  let c2 := scoreContrib (checkTotal checks.security_groups)
    (checkCompliant checks.security_groups) 0.15
  let c3 := scoreContrib (checkTotal checks.s3_bucket_policies)
    (checkCompliant checks.s3_bucket_policies) 0.15
  let c4 := scoreContrib (checkTotal checks.encryption_status)
    (checkCompliant checks.encryption_status) 0.10
  let c5 := scoreContrib (checkTotal checks.public_access)
    (checkCompliant checks.public_access) 0.05
  let total_score := c0.1 + c1.1 + c2.1 + c3.1 + c4.1 + c5.1
  let total_weight := c0.2 + c1.2 + c2.2 + c3.2 + c4.2 + c5.2
  if 0 < total_weight then total_score / total_weight else 0

/-- The six categories of the specification, in source order, each as
`(evaluated resource count, compliant-like count, weight)`. -/
def specCategories (cfg : ConfigStatus) (checks : CustomChecks) : List (ℕ × ℕ × ℚ) :=
  [ (cfg.total_rules, cfg.compliant_rules, 0.4),
    (checkTotal checks.tagging_compliance, checkCompliant checks.tagging_compliance, 0.15),
    (checkTotal checks.security_groups, checkCompliant checks.security_groups, 0.15),
    (checkTotal checks.s3_bucket_policies, checkCompliant checks.s3_bucket_policies, 0.15),
    (checkTotal checks.encryption_status, checkCompliant checks.encryption_status, 0.10),
    (checkTotal checks.public_access, checkCompliant checks.public_access, 0.05) ]

/-- The score formula exactly as the specification words it:
`Σ(category_score × weight) / Σ(weight actually applied)`, a category with
zero evaluated resources contributing zero to both numerator and
denominator, and `0.0` when every category has zero resources. -/
def spec_compliance_score (cfg : ConfigStatus) (checks : CustomChecks) : ℚ :=
  let cats := specCategories cfg checks
  let num := (cats.map fun c =>
    if 0 < c.1 then ((c.2.1 : ℚ) / (c.1 : ℚ)) * 100 * c.2.2 else 0).sum
  let den := (cats.map fun c => if 0 < c.1 then c.2.2 else 0).sum
  if cats.all (fun c => c.1 = 0) then 0 else num / den

example : calculate_compliance_score ⟨10, 8, 2⟩
    ⟨⟨4, 4, 0, 0, 0, 0, 0, 0⟩, ⟨0, 0, 0, 0, 3, 3, 0, 0⟩, ⟨0, 0, 2, 2, 0, 0, 0, 0⟩,
     ⟨5, 0, 0, 0, 0, 0, 5, 0⟩, ⟨6, 0, 0, 0, 0, 0, 0, 6⟩⟩ = 92 := by
  norm_num [calculate_compliance_score, scoreContrib, checkTotal, checkCompliant, pyOrNat]

example : calculate_compliance_score ⟨0, 0, 0⟩ ⟨zeroCheck, zeroCheck, zeroCheck, zeroCheck, zeroCheck⟩ = 0 := by
  norm_num [calculate_compliance_score, scoreContrib, checkTotal, checkCompliant, pyOrNat, zeroCheck]

lemma scoreContrib_fst (t c : ℕ) (w : ℚ) :
    (scoreContrib t c w).1 = if 0 < t then ((c : ℚ) / (t : ℚ)) * 100 * w else 0 := by
  unfold scoreContrib; split <;> rfl

lemma scoreContrib_snd (t c : ℕ) (w : ℚ) :
    (scoreContrib t c w).2 = if 0 < t then w else 0 := by
  unfold scoreContrib; split <;> rfl

lemma scoreContrib_bounds (t c : ℕ) (w : ℚ) (hw : 0 ≤ w) (hct : c ≤ t) :
    0 ≤ (scoreContrib t c w).1 ∧ 0 ≤ (scoreContrib t c w).2 ∧
      (scoreContrib t c w).1 ≤ 100 * (scoreContrib t c w).2 := by
  rw [scoreContrib_fst, scoreContrib_snd]
  split
  · have ht : (0 : ℚ) < t := by exact_mod_cast ‹0 < t›
    have hdiv : (c : ℚ) / (t : ℚ) ≤ 1 :=
      div_le_one_of_le₀ (by exact_mod_cast hct) (le_of_lt ht)
    have hdiv0 : 0 ≤ (c : ℚ) / (t : ℚ) := div_nonneg (Nat.cast_nonneg c) (le_of_lt ht)
    refine ⟨by positivity, hw, ?_⟩
    nlinarith
  · exact ⟨le_refl 0, le_refl 0, by norm_num⟩

/-- Claim C1: for every rule-compliance structure and every map of the five
custom-check results, `calculate_compliance_score` returns
`Σ(category_score × weight) / Σ(weight actually applied)`, where a category
with zero evaluated resources contributes zero to both numerator and
denominator, and the result is `0.0` when every category has zero
resources. -/
theorem calculate_compliance_score_matches_spec (cfg : ConfigStatus) (checks : CustomChecks) :
    calculate_compliance_score cfg checks = spec_compliance_score cfg checks := by
  simp only [calculate_compliance_score, spec_compliance_score, specCategories,
    List.map_cons, List.map_nil, List.sum_cons, List.sum_nil, List.all_cons, List.all_nil,
    scoreContrib_fst, scoreContrib_snd, Bool.and_true, Bool.and_eq_true,
    decide_eq_true_eq, add_zero]
  by_cases hz : cfg.total_rules = 0 ∧ checkTotal checks.tagging_compliance = 0 ∧
      checkTotal checks.security_groups = 0 ∧ checkTotal checks.s3_bucket_policies = 0 ∧
      checkTotal checks.encryption_status = 0 ∧ checkTotal checks.public_access = 0
  · rw [if_pos hz]
    obtain ⟨z0, z1, z2, z3, z4, z5⟩ := hz
    rw [z0, z1, z2, z3, z4, z5]
    norm_num
  · rw [if_neg hz]
    set w0 := (if 0 < cfg.total_rules then (0.4 : ℚ) else 0) with hw0
    set w1 := (if 0 < checkTotal checks.tagging_compliance then (0.15 : ℚ) else 0) with hw1
    set w2 := (if 0 < checkTotal checks.security_groups then (0.15 : ℚ) else 0) with hw2
    set w3 := (if 0 < checkTotal checks.s3_bucket_policies then (0.15 : ℚ) else 0) with hw3
    set w4 := (if 0 < checkTotal checks.encryption_status then (0.10 : ℚ) else 0) with hw4
    set w5 := (if 0 < checkTotal checks.public_access then (0.05 : ℚ) else 0) with hw5
    have hb0 : 0 ≤ w0 := by rw [hw0]; split <;> norm_num
    have hb1 : 0 ≤ w1 := by rw [hw1]; split <;> norm_num
    have hb2 : 0 ≤ w2 := by rw [hw2]; split <;> norm_num
    have hb3 : 0 ≤ w3 := by rw [hw3]; split <;> norm_num
    have hb4 : 0 ≤ w4 := by rw [hw4]; split <;> norm_num
    have hb5 : 0 ≤ w5 := by rw [hw5]; split <;> norm_num
    have hor : cfg.total_rules ≠ 0 ∨ checkTotal checks.tagging_compliance ≠ 0 ∨
        checkTotal checks.security_groups ≠ 0 ∨ checkTotal checks.s3_bucket_policies ≠ 0 ∨
        checkTotal checks.encryption_status ≠ 0 ∨ checkTotal checks.public_access ≠ 0 := by
      tauto
    have hWpos : 0 < w0 + w1 + w2 + w3 + w4 + w5 := by
      rcases hor with h | h | h | h | h | h
      · have hv : w0 = 0.4 := by rw [hw0, if_pos (Nat.pos_of_ne_zero h)]
        linarith
      · have hv : w1 = 0.15 := by rw [hw1, if_pos (Nat.pos_of_ne_zero h)]
        linarith
      · have hv : w2 = 0.15 := by rw [hw2, if_pos (Nat.pos_of_ne_zero h)]
        linarith
      · have hv : w3 = 0.15 := by rw [hw3, if_pos (Nat.pos_of_ne_zero h)]
        linarith
      · have hv : w4 = 0.10 := by rw [hw4, if_pos (Nat.pos_of_ne_zero h)]
        linarith
      · have hv : w5 = 0.05 := by rw [hw5, if_pos (Nat.pos_of_ne_zero h)]
        linarith
    rw [if_pos hWpos]
    ring

/-- Claim C9: whenever each category's compliant-like count does not exceed
its total count, the compliance score lies in the interval `[0, 100]`. -/
theorem calculate_compliance_score_in_range (cfg : ConfigStatus) (checks : CustomChecks)
    (hc : cfg.compliant_rules ≤ cfg.total_rules)
    (ht : checkCompliant checks.tagging_compliance ≤ checkTotal checks.tagging_compliance)
    (hs : checkCompliant checks.security_groups ≤ checkTotal checks.security_groups)
    (hb : checkCompliant checks.s3_bucket_policies ≤ checkTotal checks.s3_bucket_policies)
    (he : checkCompliant checks.encryption_status ≤ checkTotal checks.encryption_status)
    (hp : checkCompliant checks.public_access ≤ checkTotal checks.public_access) :
    0 ≤ calculate_compliance_score cfg checks ∧ calculate_compliance_score cfg checks ≤ 100 := by
  obtain ⟨a0, b0, d0⟩ := scoreContrib_bounds cfg.total_rules cfg.compliant_rules 0.4 (by norm_num) hc
  obtain ⟨a1, b1, d1⟩ := scoreContrib_bounds (checkTotal checks.tagging_compliance)
    (checkCompliant checks.tagging_compliance) 0.15 (by norm_num) ht
  obtain ⟨a2, b2, d2⟩ := scoreContrib_bounds (checkTotal checks.security_groups)
    (checkCompliant checks.security_groups) 0.15 (by norm_num) hs
  obtain ⟨a3, b3, d3⟩ := scoreContrib_bounds (checkTotal checks.s3_bucket_policies)
    (checkCompliant checks.s3_bucket_policies) 0.15 (by norm_num) hb
  obtain ⟨a4, b4, d4⟩ := scoreContrib_bounds (checkTotal checks.encryption_status)
    (checkCompliant checks.encryption_status) 0.10 (by norm_num) he
  obtain ⟨a5, b5, d5⟩ := scoreContrib_bounds (checkTotal checks.public_access)
    (checkCompliant checks.public_access) 0.05 (by norm_num) hp
  simp only [calculate_compliance_score]
  constructor
  · split
    · exact div_nonneg (by linarith) (by linarith)
    · exact le_refl 0
  · split
    · rw [div_le_iff₀ (by assumption)]
      linarith
    · norm_num

/-- Witness for C9 at a concrete report: rule compliance 8/10, all custom
checks empty. -/
theorem calculate_compliance_score_in_range_witness :
    0 ≤ calculate_compliance_score ⟨10, 8, 2⟩
        ⟨zeroCheck, zeroCheck, zeroCheck, zeroCheck, zeroCheck⟩ ∧
      calculate_compliance_score ⟨10, 8, 2⟩
        ⟨zeroCheck, zeroCheck, zeroCheck, zeroCheck, zeroCheck⟩ ≤ 100 :=
  calculate_compliance_score_in_range ⟨10, 8, 2⟩
    ⟨zeroCheck, zeroCheck, zeroCheck, zeroCheck, zeroCheck⟩
    (by norm_num) (by decide) (by decide) (by decide) (by decide) (by decide)

/-! ## Compliance scorer: handler control flow (compliance_checker.py lines 39-93)

The handler's interactions with AWS are modelled by an environment record
carrying the outcome of each API-backed step: an `Except` value is `.error`
when the underlying calls raise.  Each check function catches its own
exceptions and degrades to a zeroed result; only an exception escaping the
top-level `try` reaches the fatal 500 path. -/

/-- One entry of `describe_compliance_by_config_rule`:
a Config rule name with its `ComplianceType` string. -/
structure RuleCompliance where
  ruleName : String
  complianceType : String
  deriving DecidableEq, Repr

/-- `get_config_rules_compliance` (lines 96-130): counts total, compliant
(`ComplianceType == 'COMPLIANT'`) and non-compliant rules; on any exception
returns the all-zero structure. -/
def get_config_rules_compliance (resp : Except String (List RuleCompliance)) : ConfigStatus :=
  match resp with
  | .error _ => ⟨0, 0, 0⟩
  | .ok rules =>
    rules.foldl (fun acc r =>
      { total_rules := acc.total_rules + 1
        compliant_rules := acc.compliant_rules + (if r.complianceType = "COMPLIANT" then 1 else 0)
        non_compliant_rules :=
          acc.non_compliant_rules + (if r.complianceType = "COMPLIANT" then 0 else 1) })
      ⟨0, 0, 0⟩

/-- The `try/except` skeleton shared by the five custom check functions
(lines 148-436): the check body's result if it completed, the all-zero
result if it raised. -/
def runCheck (resp : Except String CheckData) : CheckData :=
  match resp with
  | .ok d => d
  | .error _ => zeroCheck

/-- The per-invocation outcomes of the compliance handler's AWS calls,
plus the `SNS_TOPIC_ARN` configuration read at process start
(`os.environ.get`, so possibly absent). -/
structure ComplianceEnv where
  snsTopicArn : Option String
  configRules : Except String (List RuleCompliance)
  taggingCheck : Except String CheckData
  securityGroupsCheck : Except String CheckData
  s3PoliciesCheck : Except String CheckData
  encryptionCheck : Except String CheckData
  publicAccessCheck : Except String CheckData
  deriving Repr

/-- `perform_custom_checks` (lines 133-145): assembles the five check
results. -/
def perform_custom_checks (env : ComplianceEnv) : CustomChecks :=
  { tagging_compliance := runCheck env.taggingCheck
    security_groups := runCheck env.securityGroupsCheck
    s3_bucket_policies := runCheck env.s3PoliciesCheck
    encryption_status := runCheck env.encryptionCheck
    public_access := runCheck env.publicAccessCheck }

/-- The report assembled on the handler's success path. -/
structure ComplianceReport where
  config_rules_status : ConfigStatus
  custom_checks : CustomChecks
  compliance_score : ℚ
  deriving Repr

/-- A handler response body: either the full JSON-encoded report or an
`{error: string}` object. -/
inductive ResponseBody where
  | report (r : ComplianceReport)
  | errorObj (msg : String)
  deriving Repr

/-- A Lambda response: status code plus body. -/
structure LambdaResponse where
  statusCode : ℕ
  body : ResponseBody
  deriving Repr

/-- The handler body (lines 43-81): build the report, and call
`send_compliance_notification` exactly when the score is below 90.
`send_compliance_notification` (lines 514-530) returns without publishing
when no SNS topic is configured; transport errors inside it are caught and
logged, so they never escape.  The returned `Bool` records whether a
compliance notification was published. -/
def compliance_handler (env : ComplianceEnv) : LambdaResponse × Bool :=
  let cfg := get_config_rules_compliance env.configRules
  let checks := perform_custom_checks env
  let score := calculate_compliance_score cfg checks
  let published := decide (score < 90) && env.snsTopicArn.isSome
  ({ statusCode := 200, body := .report ⟨cfg, checks, score⟩ }, published)

/-- The top-level `try/except` (lines 43 and 83-93): a normally completing
body yields the 200 response; an exception escaping the body yields a 500
response whose body is the `{error: ...}` object, and no compliance
notification. -/
def compliance_lambda (outcome : Except String ComplianceEnv) : LambdaResponse × Bool :=
  match outcome with
  | .ok env => compliance_handler env
  | .error e =>
    ({ statusCode := 500, body := .errorObj ("Compliance check failed: " ++ e) }, false)

/-- The score computed by the handler for a given environment. -/
def handlerScore (env : ComplianceEnv) : ℚ :=
  calculate_compliance_score (get_config_rules_compliance env.configRules)
    (perform_custom_checks env)

/-- Claim C4: two-tier error handling of the compliance handler.  A failing
individual check (or the Config-rule fetch) degrades to an all-zero result
while the run still completes with a 200 response carrying a report; an
exception escaping the top-level handler body yields a 500 response whose
body is an `{error: string}` object, never a partial report. -/
theorem compliance_two_tier_error_handling :
    (∀ env : ComplianceEnv, (compliance_lambda (.ok env)).1.statusCode = 200 ∧
      ∃ r, (compliance_lambda (.ok env)).1.body = .report r) ∧
    (∀ (env : ComplianceEnv) (e : String), env.configRules = .error e →
      get_config_rules_compliance env.configRules = ⟨0, 0, 0⟩) ∧
    (∀ (env : ComplianceEnv) (e : String), env.taggingCheck = .error e →
      (perform_custom_checks env).tagging_compliance = zeroCheck) ∧
    (∀ (env : ComplianceEnv) (e : String), env.securityGroupsCheck = .error e →
      (perform_custom_checks env).security_groups = zeroCheck) ∧
    (∀ (env : ComplianceEnv) (e : String), env.s3PoliciesCheck = .error e →
      (perform_custom_checks env).s3_bucket_policies = zeroCheck) ∧
    (∀ (env : ComplianceEnv) (e : String), env.encryptionCheck = .error e →
      (perform_custom_checks env).encryption_status = zeroCheck) ∧
    (∀ (env : ComplianceEnv) (e : String), env.publicAccessCheck = .error e →
      (perform_custom_checks env).public_access = zeroCheck) ∧
    (∀ e : String, (compliance_lambda (.error e)).1.statusCode = 500 ∧
      (∃ m, (compliance_lambda (.error e)).1.body = .errorObj m) ∧
      ∀ r : ComplianceReport, (compliance_lambda (.error e)).1.body ≠ .report r) := by
  refine ⟨fun env => ⟨rfl, ⟨_, rfl⟩⟩, ?_, ?_, ?_, ?_, ?_, ?_,
    fun e => ⟨rfl, ⟨_, rfl⟩, fun r h => by simp [compliance_lambda] at h⟩⟩ <;>
    intro env e h <;>
    simp [get_config_rules_compliance, perform_custom_checks, runCheck, h]

/-- Witness for C4: a run whose every cloud call raised still returns 200
with every check zeroed, and a fatal exception returns 500. -/
theorem compliance_two_tier_error_handling_witness :
    (compliance_lambda (.ok ⟨none, .error "x", .error "x", .error "x", .error "x",
      .error "x", .error "x"⟩)).1.statusCode = 200 ∧
    (perform_custom_checks ⟨none, .error "x", .error "x", .error "x", .error "x",
      .error "x", .error "x"⟩).tagging_compliance = zeroCheck ∧
    (compliance_lambda (.error "boom")).1.statusCode = 500 :=
  ⟨(compliance_two_tier_error_handling.1 _).1,
   compliance_two_tier_error_handling.2.2.1 _ "x" rfl,
   (compliance_two_tier_error_handling.2.2.2.2.2.2.2 "boom").1⟩

lemma compliance_published_eq (env : ComplianceEnv) :
    (compliance_lambda (.ok env)).2 =
      (decide (handlerScore env < 90) && env.snsTopicArn.isSome) := rfl

/-- Counterexample to C5 as stated: with no SNS topic configured, the
handler computes a score below 90 yet publishes no compliance
notice, so "published iff score < 90" fails. -/
theorem compliance_notify_counterexample :
    ¬(((compliance_lambda (.ok ⟨none, .error "down", .error "down", .error "down",
        .error "down", .error "down", .error "down"⟩)).2 = true) ↔
      handlerScore ⟨none, .error "down", .error "down", .error "down",
        .error "down", .error "down", .error "down"⟩ < 90) := by
  intro h
  have hscore : handlerScore ⟨none, .error "down", .error "down", .error "down",
      .error "down", .error "down", .error "down"⟩ = 0 := by
    norm_num [handlerScore, calculate_compliance_score, get_config_rules_compliance,
      perform_custom_checks, runCheck, zeroCheck, checkTotal, checkCompliant, pyOrNat,
      scoreContrib]
  have hpub := h.mpr (by rw [hscore]; norm_num)
  rw [compliance_published_eq] at hpub
  simp at hpub

/-- Claim C5 (amended): on the successful path a compliance notice is
published iff the score is strictly below 90 AND an SNS topic is
configured; with score at or above 90 nothing is ever published. -/
theorem compliance_notify_amended (env : ComplianceEnv) :
    ((compliance_lambda (.ok env)).2 = true ↔
      (handlerScore env < 90 ∧ env.snsTopicArn.isSome = true)) ∧
    (90 ≤ handlerScore env → (compliance_lambda (.ok env)).2 = false) := by
  rw [compliance_published_eq]
  constructor
  · simp
  · intro h
    rw [decide_eq_false (not_lt.mpr h), Bool.false_and]

/-- Witness for the amended C5: a fully compliant Config-rule fetch gives
score 100 and no notice is published. -/
theorem compliance_notify_amended_witness :
    90 ≤ handlerScore ⟨some "arn:topic", .ok [⟨"r1", "COMPLIANT"⟩], .error "x",
      .error "x", .error "x", .error "x", .error "x"⟩ ∧
    (compliance_lambda (.ok ⟨some "arn:topic", .ok [⟨"r1", "COMPLIANT"⟩], .error "x",
      .error "x", .error "x", .error "x", .error "x"⟩)).2 = false := by
  have hscore : handlerScore ⟨some "arn:topic", .ok [⟨"r1", "COMPLIANT"⟩], .error "x",
      .error "x", .error "x", .error "x", .error "x"⟩ = 100 := by
    norm_num [handlerScore, calculate_compliance_score, get_config_rules_compliance,
      perform_custom_checks, runCheck, zeroCheck, checkTotal, checkCompliant, pyOrNat,
      scoreContrib, List.foldl]
  exact ⟨by rw [hscore]; norm_num,
    (compliance_notify_amended ⟨some "arn:topic", .ok [⟨"r1", "COMPLIANT"⟩], .error "x",
      .error "x", .error "x", .error "x", .error "x"⟩).2 (by rw [hscore]; norm_num)⟩

/-! ## Backup rotator: snapshot cleanup (db_backup.py lines 223-297)

Timestamps are modelled as naive-UTC epoch seconds (`ℤ`); a Python
`timedelta(days=d)` is `d * 86400` seconds. -/

/-- Python's `needle in haystack` on strings, over the character lists:
`listStartsWith hay needle` tests a prefix match. -/
def listStartsWith : List Char → List Char → Bool
  | _, [] => true
  | [], _ :: _ => false
  | a :: as, b :: bs => a == b && listStartsWith as bs

/-- `listContainsSub hay needle` tests whether `needle` occurs contiguously
anywhere in `hay`. -/
def listContainsSub : List Char → List Char → Bool
  | [], needle => needle.isEmpty
  | h :: t, needle => listStartsWith (h :: t) needle || listContainsSub t needle

/-- Python's `needle in hay` for strings. -/
def strContainsSub (hay needle : String) : Bool :=
  listContainsSub hay.toList needle.toList

/-- An RDS tag (`{'Key': ..., 'Value': ...}`). -/
structure RdsTag where
  key : String
  value : String
  deriving DecidableEq, Repr

/-- A manual RDS snapshot as seen by `cleanup_old_snapshots`: the optional
`TagList` / `Tags` keys, the optional instance / cluster identifier keys,
and `SnapshotCreateTime` (naive UTC, epoch seconds). -/
structure Snapshot where
  tagList : Option (List RdsTag)
  tags : Option (List RdsTag)
  dbSnapshotIdentifier : Option String
  dbClusterSnapshotIdentifier : Option String
  snapshotCreateTime : ℤ
  deriving DecidableEq, Repr

/-- Python's `a or b` for optional strings: the first truthy (non-`None`,
non-empty) value, else the second. -/
def pyOrStr (a b : Option String) : Option String :=
  match a with
  | some s => if s = "" then b else some s
  | none => b

/-- `is_automated_backup_snapshot` (lines 284-297): true when the snapshot
carries a `BackupType=Automated` tag (reading `TagList` when that key is
present, else `Tags`), or, as fallback, when its identifier (instance id
`or` cluster id) is truthy and contains `-backup-`. -/
def is_automated_backup_snapshot (s : Snapshot) : Bool :=
  (match (match s.tagList with
          | some l => some l
          | none => s.tags) with
   | some l => l.any fun t => t.key == "BackupType" && t.value == "Automated"
   | none => false) ||
  (match pyOrStr s.dbSnapshotIdentifier s.dbClusterSnapshotIdentifier with
   | some sid => !(sid == "") && strContainsSub sid "-backup-"
   | none => false)

/-- The retention cutoff (line 229): `utcnow() - timedelta(days=retention)`. -/
def cutoffTime (now retentionDays : ℤ) : ℤ := now - retentionDays * 86400

/-- The deletion test applied to each manual snapshot (lines 235 and 257):
automated-backup marker AND creation time strictly before the cutoff. -/
def snapshotEligible (now retentionDays : ℤ) (s : Snapshot) : Bool :=
  is_automated_backup_snapshot s && decide (s.snapshotCreateTime < cutoffTime now retentionDays)

/-- `cleanup_old_snapshots` (lines 223-281), restricted to its selection
behaviour: the instance snapshots then the cluster snapshots that are
selected for deletion. -/
def cleanup_old_snapshots (now retentionDays : ℤ)
    (instanceSnapshots clusterSnapshots : List Snapshot) : List Snapshot :=
  instanceSnapshots.filter (snapshotEligible now retentionDays) ++
    clusterSnapshots.filter (snapshotEligible now retentionDays)

/-- Claim C2: a manual snapshot is selected for deletion iff it carries the
automated-backup marker and was created strictly before
`now − retention_days`; at exactly the cutoff it is kept, one second
earlier it is deleted. -/
theorem cleanup_selects_iff (now retentionDays : ℤ)
    (instanceSnapshots clusterSnapshots : List Snapshot) (s : Snapshot) :
    (s ∈ cleanup_old_snapshots now retentionDays instanceSnapshots clusterSnapshots ↔
      (s ∈ instanceSnapshots ∨ s ∈ clusterSnapshots) ∧
        is_automated_backup_snapshot s = true ∧
        s.snapshotCreateTime < now - retentionDays * 86400) ∧
    (is_automated_backup_snapshot s = true →
      s.snapshotCreateTime = now - retentionDays * 86400 →
      s ∉ cleanup_old_snapshots now retentionDays instanceSnapshots clusterSnapshots) ∧
    ((s ∈ instanceSnapshots ∨ s ∈ clusterSnapshots) →
      is_automated_backup_snapshot s = true →
      s.snapshotCreateTime = now - retentionDays * 86400 - 1 →
      s ∈ cleanup_old_snapshots now retentionDays instanceSnapshots clusterSnapshots) := by
  have hmem : s ∈ cleanup_old_snapshots now retentionDays instanceSnapshots clusterSnapshots ↔
      (s ∈ instanceSnapshots ∨ s ∈ clusterSnapshots) ∧
        is_automated_backup_snapshot s = true ∧
        s.snapshotCreateTime < now - retentionDays * 86400 := by
    simp [cleanup_old_snapshots, snapshotEligible, cutoffTime, List.mem_filter,
      List.mem_append, Bool.and_eq_true, decide_eq_true_eq, and_assoc]
    tauto
  refine ⟨hmem, ?_, ?_⟩
  · intro hmark heq hin
    have := (hmem.mp hin).2.2
    omega
  · intro hsrc hmark heq
    exact hmem.mpr ⟨hsrc, hmark, by omega⟩

/-- Witness for C2 at concrete snapshots: retention 30 days, a tagged
snapshot at the cutoff is kept and one a second older is deleted. -/
theorem cleanup_selects_iff_witness :
    (is_automated_backup_snapshot
        ⟨some [⟨"BackupType", "Automated"⟩], none, some "db1-backup-x", none,
          2592000 - 30 * 86400⟩ = true ∧
      ⟨some [⟨"BackupType", "Automated"⟩], none, some "db1-backup-x", none,
          (2592000 - 30 * 86400 : ℤ)⟩ ∉
        cleanup_old_snapshots 2592000 30
          [⟨some [⟨"BackupType", "Automated"⟩], none, some "db1-backup-x", none,
            2592000 - 30 * 86400⟩] []) ∧
    ⟨some [⟨"BackupType", "Automated"⟩], none, some "db2-backup-x", none,
        (2592000 - 30 * 86400 - 1 : ℤ)⟩ ∈
      cleanup_old_snapshots 2592000 30
        [⟨some [⟨"BackupType", "Automated"⟩], none, some "db2-backup-x", none,
          2592000 - 30 * 86400 - 1⟩] [] :=
  ⟨⟨by decide,
    (cleanup_selects_iff 2592000 30 _ [] _).2.1 (by decide) (by decide)⟩,
   (cleanup_selects_iff 2592000 30 _ [] _).2.2 (Or.inl (by simp)) (by decide) (by decide)⟩

/-! ## Backup rotator: snapshot identifiers (db_backup.py lines 147-153, 185-191)

`backup_rds_instance` and `backup_rds_cluster` both derive the snapshot
identifier as `f"{source_id}-backup-{timestamp}"` with
`timestamp = datetime.utcnow().strftime('%Y-%m-%d-%H-%M-%S')`.  `strftime`
is external library code; it is modelled digit-by-digit: `%Y` is the
zero-padded 4-digit year (for years below 10000), and the other five
fields are zero-padded 2-digit numbers. -/

/-- A wall-clock UTC time to the second, as the six `strftime` fields. -/
structure UtcTime where
  year : ℕ
  month : ℕ
  day : ℕ
  hour : ℕ
  minute : ℕ
  second : ℕ
  deriving DecidableEq, Repr

/-- A field of `UtcTime` rendered as real calendar times render: the year
below 10000 and every other field below 100 (months are 1-12, hours 0-23,
and so on, so this is implied by validity). -/
def UtcTime.Renderable (t : UtcTime) : Prop :=
  t.year < 10000 ∧ t.month < 100 ∧ t.day < 100 ∧ t.hour < 100 ∧
    t.minute < 100 ∧ t.second < 100

instance (t : UtcTime) : Decidable t.Renderable := by
  unfold UtcTime.Renderable; infer_instance

/-- Zero-padded two-digit decimal rendering (`%m`, `%d`, `%H`, `%M`, `%S`). -/
def pad2Chars (n : ℕ) : List Char := [Nat.digitChar (n / 10), Nat.digitChar (n % 10)]

/-- Zero-padded four-digit decimal rendering (`%Y` for years up to 9999). -/
def pad4Chars (n : ℕ) : List Char :=
  [Nat.digitChar (n / 1000), Nat.digitChar (n / 100 % 10),
   Nat.digitChar (n / 10 % 10), Nat.digitChar (n % 10)]

/-- `strftime('%Y-%m-%d-%H-%M-%S')`. -/
def strftimeChars (t : UtcTime) : List Char :=
  pad4Chars t.year ++ ['-'] ++ pad2Chars t.month ++ ['-'] ++ pad2Chars t.day ++
    ['-'] ++ pad2Chars t.hour ++ ['-'] ++ pad2Chars t.minute ++ ['-'] ++ pad2Chars t.second

/-- The backup timestamp string. -/
def backupTimestamp (t : UtcTime) : String := ⟨strftimeChars t⟩

/-- The snapshot identifier `f"{source_id}-backup-{timestamp}"` built by
`backup_rds_instance` (line 153) and `backup_rds_cluster` (line 191). -/
def snapshotIdFor (sourceId : String) (t : UtcTime) : String :=
  sourceId ++ "-backup-" ++ backupTimestamp t

lemma digitChar_inj {a b : ℕ} (ha : a < 10) (hb : b < 10)
    (h : Nat.digitChar a = Nat.digitChar b) : a = b := by
  interval_cases a <;> interval_cases b <;> revert h <;> decide

lemma pad2Chars_inj {a b : ℕ} (ha : a < 100) (hb : b < 100)
    (h : pad2Chars a = pad2Chars b) : a = b := by
  simp only [pad2Chars, List.cons.injEq, and_true] at h
  have h1 := digitChar_inj (by omega) (by omega) h.1
  have h2 := digitChar_inj (by omega) (by omega) h.2
  omega

lemma pad4Chars_inj {a b : ℕ} (ha : a < 10000) (hb : b < 10000)
    (h : pad4Chars a = pad4Chars b) : a = b := by
  simp only [pad4Chars, List.cons.injEq, and_true] at h
  have h1 := digitChar_inj (by omega) (by omega) h.1
  have h2 := digitChar_inj (by omega) (by omega) h.2.1
  have h3 := digitChar_inj (by omega) (by omega) h.2.2.1
  have h4 := digitChar_inj (by omega) (by omega) h.2.2.2
  omega

lemma strftimeChars_inj {t u : UtcTime} (htr : t.Renderable) (hur : u.Renderable)
    (h : strftimeChars t = strftimeChars u) : t = u := by
  obtain ⟨hy, hmo, hd, hh, hmi, hs⟩ := htr
  obtain ⟨hy', hmo', hd', hh', hmi', hs'⟩ := hur
  simp only [strftimeChars, pad4Chars, pad2Chars, List.cons_append, List.nil_append,
    List.cons.injEq, and_true] at h
  obtain ⟨a1, a2, a3, a4, _, b1, b2, _, c1, c2, _, d1, d2, _, e1, e2, _, f1, f2⟩ := h
  have ey : t.year = u.year := by
    have g1 := digitChar_inj (by omega) (by omega) a1
    have g2 := digitChar_inj (by omega) (by omega) a2
    have g3 := digitChar_inj (by omega) (by omega) a3
    have g4 := digitChar_inj (by omega) (by omega) a4
    omega
  have emo : t.month = u.month := by
    have g1 := digitChar_inj (by omega) (by omega) b1
    have g2 := digitChar_inj (by omega) (by omega) b2
    omega
  have ed : t.day = u.day := by
    have g1 := digitChar_inj (by omega) (by omega) c1
    have g2 := digitChar_inj (by omega) (by omega) c2
    omega
  have eh : t.hour = u.hour := by
    have g1 := digitChar_inj (by omega) (by omega) d1
    have g2 := digitChar_inj (by omega) (by omega) d2
    omega
  have emi : t.minute = u.minute := by
    have g1 := digitChar_inj (by omega) (by omega) e1
    have g2 := digitChar_inj (by omega) (by omega) e2
    omega
  have es : t.second = u.second := by
    have g1 := digitChar_inj (by omega) (by omega) f1
    have g2 := digitChar_inj (by omega) (by omega) f2
    omega
  cases t; cases u
  simp_all

lemma string_append_data (a b : String) : (a ++ b).data = a.data ++ b.data := rfl

/-- Claim C6: the snapshot identifier is deterministic in (source, second);
distinct sources at the same second and the same source at distinct
(renderable) seconds both yield distinct identifiers. -/
theorem snapshot_id_deterministic (s1 s2 : String) (t1 t2 : UtcTime)
    (h1 : t1.Renderable) (h2 : t2.Renderable) :
    (s1 ≠ s2 → snapshotIdFor s1 t1 ≠ snapshotIdFor s2 t1) ∧
    (t1 ≠ t2 → snapshotIdFor s1 t1 ≠ snapshotIdFor s1 t2) := by
  constructor
  · intro hne heq
    apply hne
    have hdata : s1.data ++ ("-backup-" ++ backupTimestamp t1).data =
        s2.data ++ ("-backup-" ++ backupTimestamp t1).data := by
      have := congrArg String.data heq
      simpa [snapshotIdFor, string_append_data, String.append_assoc] using this
    exact congrArg String.mk (List.append_cancel_right hdata)
  · intro hne heq
    apply hne
    have hdata : (s1 ++ "-backup-").data ++ strftimeChars t1 =
        (s1 ++ "-backup-").data ++ strftimeChars t2 := by
      have := congrArg String.data heq
      simpa [snapshotIdFor, backupTimestamp, string_append_data] using this
    exact strftimeChars_inj h1 h2 (List.append_cancel_left hdata)

/-- Witness for C6: two concrete sources in one second, and one source in
two adjacent seconds. -/
theorem snapshot_id_deterministic_witness :
    snapshotIdFor "db-a" ⟨2026, 10, 12, 3, 4, 5⟩ ≠ snapshotIdFor "db-b" ⟨2026, 10, 12, 3, 4, 5⟩ ∧
      snapshotIdFor "db-a" ⟨2026, 10, 12, 3, 4, 5⟩ ≠ snapshotIdFor "db-a" ⟨2026, 10, 12, 3, 4, 6⟩ :=
  ⟨(snapshot_id_deterministic "db-a" "db-b" ⟨2026, 10, 12, 3, 4, 5⟩ ⟨2026, 10, 12, 3, 4, 5⟩
      (by decide) (by decide)).1 (by decide),
   (snapshot_id_deterministic "db-a" "db-a" ⟨2026, 10, 12, 3, 4, 5⟩ ⟨2026, 10, 12, 3, 4, 6⟩
      (by decide) (by decide)).2 (by decide)⟩

/-! ## Cost optimizer: EC2 downsizing (cost_optimizer.py lines 152-195, 312-340, 405-457) -/

/-- A running, project-tagged EC2 instance together with the CloudWatch
`get_metric_statistics` outcome for its 7-day hourly CPU averages (an
exception when the call raised). -/
structure EC2Instance where
  instanceId : String
  instanceType : String
  cpuResponse : Except String (List ℚ)
  deriving Repr

/-- `get_average_cpu_utilization` (lines 312-340): the arithmetic mean of
the returned datapoints, `0.0` when there are none, and `0.0` when the
metric query raised. -/
def get_average_cpu_utilization (resp : Except String (List ℚ)) : ℚ :=
  match resp with
  | .error _ => 0
  | .ok dps => if dps.isEmpty then 0 else dps.sum / (dps.length : ℚ)

/-- The static downsize table of `suggest_smaller_instance_type`
(lines 405-423). -/
def downsize_map : List (String × String) :=
  [("t3.large", "t3.medium"), ("t3.medium", "t3.small"), ("t3.xlarge", "t3.large"),
   ("m5.large", "m5.medium"), ("m5.xlarge", "m5.large"), ("m5.2xlarge", "m5.xlarge"),
   ("r5.large", "r5.medium"), ("r5.xlarge", "r5.large"),
   ("c5.large", "c5.medium"), ("c5.xlarge", "c5.large")]

/-- `suggest_smaller_instance_type`: `downsize_map.get(current_type)`. -/
def suggest_smaller_instance_type (current_type : String) : Option String :=
  downsize_map.lookup current_type

/-- The static monthly price table of `estimate_instance_cost_savings`
(lines 442-457). -/
def ec2_cost_map : List (String × ℚ) :=
  [("t3.nano", 5), ("t3.micro", 8), ("t3.small", 17), ("t3.medium", 34), ("t3.large", 67),
   ("m5.medium", 44), ("m5.large", 87), ("m5.xlarge", 174),
   ("r5.medium", 61), ("r5.large", 122), ("r5.xlarge", 244),
   ("c5.medium", 39), ("c5.large", 77), ("c5.xlarge", 154)]

/-- `estimate_instance_cost_savings`: `max(0, cost_map.get(current, 0) -
cost_map.get(suggested, 0))`. -/
def estimate_instance_cost_savings (current_type suggested_type : String) : ℚ :=
  max 0 ((ec2_cost_map.lookup current_type).getD 0 - (ec2_cost_map.lookup suggested_type).getD 0)

/-- One EC2 downsizing recommendation record (lines 180-188). -/
structure EC2Recommendation where
  instance_id : String
  current_type : String
  suggested_type : String
  current_cpu_utilization : ℚ
  monthly_savings : ℚ
  deriving Repr

/-- The per-instance body of the `analyze_ec2_instances` loop
(lines 167-188): a recommendation exactly when the 7-day average CPU is
strictly below the threshold and the downsize table knows a smaller type. -/
def downsizeRecommendation (threshold : ℚ) (inst : EC2Instance) : Option EC2Recommendation :=
  let cpu := get_average_cpu_utilization inst.cpuResponse
  if cpu < threshold then
    match suggest_smaller_instance_type inst.instanceType with
    | some suggested =>
      some ⟨inst.instanceId, inst.instanceType, suggested, cpu,
        estimate_instance_cost_savings inst.instanceType suggested⟩
    | none => none
  else none

/-- `analyze_ec2_instances` (lines 152-195): the recommendations collected
over the running project instances, in order. -/
def analyze_ec2_instances (threshold : ℚ) (instances : List EC2Instance) :
    List EC2Recommendation :=
  instances.filterMap (downsizeRecommendation threshold)

/-- Claim C3: an instance is flagged iff its average CPU is strictly below
the threshold and the downsize table has an entry for its type; equality
with the threshold never flags, an unknown type never flags, and every
emitted recommendation comes from some analysed instance. -/
theorem analyze_ec2_strict_threshold (threshold : ℚ) (instances : List EC2Instance) :
    (∀ inst : EC2Instance, (downsizeRecommendation threshold inst).isSome = true ↔
      (get_average_cpu_utilization inst.cpuResponse < threshold ∧
        (suggest_smaller_instance_type inst.instanceType).isSome = true)) ∧
    (∀ inst ∈ instances, ∀ r, downsizeRecommendation threshold inst = some r →
      r ∈ analyze_ec2_instances threshold instances) ∧
    (∀ r ∈ analyze_ec2_instances threshold instances,
      ∃ inst ∈ instances, downsizeRecommendation threshold inst = some r) ∧
    (∀ inst : EC2Instance, get_average_cpu_utilization inst.cpuResponse = threshold →
      downsizeRecommendation threshold inst = none) ∧
    (∀ inst : EC2Instance, suggest_smaller_instance_type inst.instanceType = none →
      downsizeRecommendation threshold inst = none) := by
  refine ⟨?_, ?_, ?_, ?_, ?_⟩
  · intro inst
    by_cases hcpu : get_average_cpu_utilization inst.cpuResponse < threshold <;>
      cases hs : suggest_smaller_instance_type inst.instanceType <;>
      simp [downsizeRecommendation, hcpu, hs]
  · intro inst hmem r hr
    exact List.mem_filterMap.mpr ⟨inst, hmem, hr⟩
  · intro r hr
    obtain ⟨inst, hmem, hr⟩ := List.mem_filterMap.mp hr
    exact ⟨inst, hmem, hr⟩
  · intro inst h
    simp [downsizeRecommendation, h]
  · intro inst h
    simp [downsizeRecommendation, h]

/-- Witness for C3 at a concrete fleet: a `t3.large` at 10% average CPU is
flagged under the default 20% threshold and appears in the output. -/
theorem analyze_ec2_strict_threshold_witness :
    downsizeRecommendation 20 ⟨"i-1", "t3.large", .ok [10, 10]⟩ =
      some ⟨"i-1", "t3.large", "t3.medium", 10, 33⟩ ∧
    ⟨"i-1", "t3.large", "t3.medium", 10, 33⟩ ∈
      analyze_ec2_instances 20 [⟨"i-1", "t3.large", .ok [10, 10]⟩] ∧
    downsizeRecommendation 20 ⟨"i-2", "t3.large", .ok [20, 20]⟩ = none ∧
    downsizeRecommendation 20 ⟨"i-3", "t3.nano", .ok [1]⟩ = none := by
  have havg : get_average_cpu_utilization (Except.ok ([10, 10] : List ℚ)) = 10 := by
    norm_num [get_average_cpu_utilization]
  have hsuggest : suggest_smaller_instance_type "t3.large" = some "t3.medium" := by
    simp [suggest_smaller_instance_type, downsize_map, List.lookup]
  have hsave : estimate_instance_cost_savings "t3.large" "t3.medium" = 33 := by
    have hl1 : List.lookup "t3.large" ec2_cost_map = some 67 := by
      simp [ec2_cost_map, List.lookup]
    have hl2 : List.lookup "t3.medium" ec2_cost_map = some 34 := by
      simp [ec2_cost_map, List.lookup]
    unfold estimate_instance_cost_savings
    rw [hl1, hl2]
    norm_num [max_def]
  have h1 : downsizeRecommendation 20 ⟨"i-1", "t3.large", .ok [10, 10]⟩ =
      some ⟨"i-1", "t3.large", "t3.medium", 10, 33⟩ := by
    simp only [downsizeRecommendation]
    rw [havg, hsuggest]
    norm_num [hsave]
  refine ⟨h1,
    (analyze_ec2_strict_threshold 20 [⟨"i-1", "t3.large", .ok [10, 10]⟩]).2.1
      ⟨"i-1", "t3.large", .ok [10, 10]⟩ (by simp) _ h1,
    (analyze_ec2_strict_threshold 20 []).2.2.2.1 ⟨"i-2", "t3.large", .ok [20, 20]⟩ ?_,
    (analyze_ec2_strict_threshold 20 []).2.2.2.2 ⟨"i-3", "t3.nano", .ok [1]⟩ ?_⟩
  · norm_num [get_average_cpu_utilization]
  · simp [suggest_smaller_instance_type, downsize_map, List.lookup]

/-- Claim C7: the savings estimate is the price-table difference floored at
zero (hence never negative), and `t3.large → t3.medium` saves `67 − 34 = 33`. -/
theorem estimate_savings_floored :
    (∀ current_type suggested_type : String,
      estimate_instance_cost_savings current_type suggested_type =
        max 0 ((ec2_cost_map.lookup current_type).getD 0 -
          (ec2_cost_map.lookup suggested_type).getD 0)) ∧
    (∀ current_type suggested_type : String,
      0 ≤ estimate_instance_cost_savings current_type suggested_type) ∧
    estimate_instance_cost_savings "t3.large" "t3.medium" = 33 := by
  refine ⟨fun _ _ => rfl, fun a b => le_max_left 0 _, ?_⟩
  have hl1 : List.lookup "t3.large" ec2_cost_map = some 67 := by
    simp [ec2_cost_map, List.lookup]
  have hl2 : List.lookup "t3.medium" ec2_cost_map = some 34 := by
    simp [ec2_cost_map, List.lookup]
  unfold estimate_instance_cost_savings
  rw [hl1, hl2]
  norm_num [max_def]

/-- Claim C10: a running instance whose metric query returns zero
datapoints gets average utilization exactly `0.0`, so under any positive
threshold it is flagged whenever the downsize table knows its type. -/
theorem no_datapoints_always_flagged (threshold : ℚ) (inst : EC2Instance)
    (hdp : inst.cpuResponse = .ok [])
    (hpos : 0 < threshold)
    (hsz : (suggest_smaller_instance_type inst.instanceType).isSome = true) :
    get_average_cpu_utilization inst.cpuResponse = 0 ∧
      (downsizeRecommendation threshold inst).isSome = true := by
  have havg : get_average_cpu_utilization inst.cpuResponse = 0 := by
    rw [hdp]; rfl
  refine ⟨havg, ?_⟩
  unfold downsizeRecommendation
  rw [havg, if_pos hpos]
  obtain ⟨s, hs⟩ := Option.isSome_iff_exists.mp hsz
  rw [hs]
  rfl

/-- Witness for C10: an idle-looking `t3.large` with no datapoints is
flagged at the default 20% threshold. -/
theorem no_datapoints_always_flagged_witness :
    get_average_cpu_utilization (Except.ok ([] : List ℚ)) = 0 ∧
      (downsizeRecommendation 20 ⟨"i-9", "t3.large", .ok []⟩).isSome = true :=
  no_datapoints_always_flagged 20 ⟨"i-9", "t3.large", .ok []⟩ rfl (by norm_num)
    (by simp [suggest_smaller_instance_type, downsize_map, List.lookup])

/-! ## Notification relay (slack_notifier.py lines 34-79) -/

/-- One SNS envelope as unpacked from `event['Records']` (lines 34-41). -/
structure SnsRecord where
  subject : String
  message : String
  topicArn : String
  timestamp : String
  deriving Repr

/-- The classification of lines 44-49: `(notification_type, color)` from a
substring test on the topic ARN. -/
def classifyTopic (topic_arn : String) : String × String :=
  if strContainsSub topic_arn "app-notifications" then ("Application", "#36a64f")
  else ("Infrastructure", "#ff9900")

/-- The category/color the relay attaches to an envelope's Slack payload. -/
def recordClassification (r : SnsRecord) : String × String := classifyTopic r.topicArn

/-- Claim C8: an envelope whose topic identifier contains
`app-notifications` is classified `Application` (green), every other
envelope `Infrastructure` (orange). -/
theorem relay_classification (r : SnsRecord) :
    (strContainsSub r.topicArn "app-notifications" = true →
      recordClassification r = ("Application", "#36a64f")) ∧
    (strContainsSub r.topicArn "app-notifications" = false →
      recordClassification r = ("Infrastructure", "#ff9900")) := by
  unfold recordClassification classifyTopic
  constructor
  · intro h; rw [if_pos h]
  · intro h; rw [if_neg (by simp [h])]

/-- Witness for C8 on two concrete topic ARNs. -/
theorem relay_classification_witness :
    recordClassification ⟨"s", "m", "arn:aws:sns:eu-west-1:1:epic-app-notifications", "ts"⟩ =
      ("Application", "#36a64f") ∧
    recordClassification ⟨"s", "m", "arn:aws:sns:eu-west-1:1:epic-alerts", "ts"⟩ =
      ("Infrastructure", "#ff9900") :=
  ⟨(relay_classification ⟨"s", "m", "arn:aws:sns:eu-west-1:1:epic-app-notifications", "ts"⟩).1
      (by decide),
   (relay_classification ⟨"s", "m", "arn:aws:sns:eu-west-1:1:epic-alerts", "ts"⟩).2
      (by decide)⟩

end EPiC

